import Mathlib

/-
Verification of the parity computation module of OptionsParityChecker_yfinance
(src/parity/parity.py and the dividend present-value helper of src/parity/data.py).

Python/numpy floats are modelled by `PyFloat`: either `nan` (the missing-data
marker `np.nan`) or a real number.  Arithmetic propagates `nan`; comparisons
with `nan` are false; Python truthiness makes `0.0` falsy and `nan` truthy,
which is what the `x or y` idiom of the source keys on.
-/

/-- Python floating-point value as the parity module uses it: either NaN
(numpy's missing-data marker) or a real number. -/
inductive PyFloat : Type where
  | nan : PyFloat
  | val : ℝ → PyFloat

namespace PyFloat

/-- Python float addition: NaN propagates. -/
noncomputable def add : PyFloat → PyFloat → PyFloat
  | val a, val b => val (a + b)
  | _, _ => nan

/-- Python float subtraction: NaN propagates. -/
noncomputable def sub : PyFloat → PyFloat → PyFloat
  | val a, val b => val (a - b)
  | _, _ => nan

/-- Python float multiplication: NaN propagates. -/
noncomputable def mul : PyFloat → PyFloat → PyFloat
  | val a, val b => val (a * b)
  | _, _ => nan

/-- Python float negation: NaN propagates. -/
noncomputable def neg : PyFloat → PyFloat
  | val a => val (-a)
  | nan => nan

/-- math.exp; math.exp(nan) is nan. -/
noncomputable def exp : PyFloat → PyFloat
  | val a => val (Real.exp a)
  | nan => nan

/-- Division by a literal constant, as in `x / 200.0`; NaN propagates. -/
noncomputable def divC : PyFloat → ℝ → PyFloat
  | val a, c => val (a / c)
  | nan, _ => nan

open Classical in
/-- Python `x or y` on floats: `x` when truthy (nonzero, NaN included —
`bool(float('nan'))` is `True`), otherwise `y`. -/
noncomputable def pyOr : PyFloat → PyFloat → PyFloat
  | nan, _ => nan
  | val a, y => if a = 0 then y else val a

/-- Python `x > 0` on floats: false for NaN. -/
def gtZero : PyFloat → Prop
  | val a => 0 < a
  | nan => False

/-- Python `x < 0` on floats: false for NaN. -/
def ltZero : PyFloat → Prop
  | val a => a < 0
  | nan => False

@[simp] theorem add_val (a b : ℝ) : add (val a) (val b) = val (a + b) := rfl

@[simp] theorem add_nan_left (y : PyFloat) : add nan y = nan := rfl

@[simp] theorem add_nan_right (x : PyFloat) : add x nan = nan := by cases x <;> rfl

@[simp] theorem sub_val (a b : ℝ) : sub (val a) (val b) = val (a - b) := rfl

@[simp] theorem sub_nan_left (y : PyFloat) : sub nan y = nan := rfl

@[simp] theorem sub_nan_right (x : PyFloat) : sub x nan = nan := by cases x <;> rfl

@[simp] theorem mul_val (a b : ℝ) : mul (val a) (val b) = val (a * b) := rfl

@[simp] theorem mul_nan_left (y : PyFloat) : mul nan y = nan := rfl

@[simp] theorem mul_nan_right (x : PyFloat) : mul x nan = nan := by cases x <;> rfl

@[simp] theorem neg_val (a : ℝ) : neg (val a) = val (-a) := rfl

@[simp] theorem neg_nan : neg nan = nan := rfl

@[simp] theorem exp_val (a : ℝ) : exp (val a) = val (Real.exp a) := rfl

@[simp] theorem exp_nan : exp nan = nan := rfl

@[simp] theorem divC_val (a c : ℝ) : divC (val a) c = val (a / c) := rfl

@[simp] theorem divC_nan (c : ℝ) : divC nan c = nan := rfl

@[simp] theorem pyOr_nan_left (y : PyFloat) : pyOr nan y = nan := rfl

theorem pyOr_val (a : ℝ) (y : PyFloat) :
    pyOr (val a) y = if a = 0 then y else val a := rfl

@[simp] theorem pyOr_val_of_ne (a : ℝ) (y : PyFloat) (h : a ≠ 0) :
    pyOr (val a) y = val a := by
  rw [pyOr_val, if_neg h]

@[simp] theorem pyOr_zero_left (y : PyFloat) : pyOr (val 0) y = y := by
  rw [pyOr_val, if_pos rfl]

/-- `x or 0.0` never changes a `val`: when the value is `0.0` the substituted
default is the same `0.0`, and NaN stays NaN. -/
theorem pyOr_val_zero (x : PyFloat) : pyOr x (val 0) = x := by
  cases x with
  | nan => rfl
  | val a =>
      rw [pyOr_val]
      by_cases h : a = 0
      · rw [if_pos h, h]
      · rw [if_neg h]

@[simp] theorem gtZero_val (a : ℝ) : gtZero (val a) ↔ 0 < a := Iff.rfl

@[simp] theorem gtZero_nan : ¬ gtZero nan := fun h => h

@[simp] theorem ltZero_val (a : ℝ) : ltZero (val a) ↔ a < 0 := Iff.rfl

@[simp] theorem ltZero_nan : ¬ ltZero nan := fun h => h

theorem not_gtZero_of_ltZero (x : PyFloat) (h : ltZero x) : ¬ gtZero x := by
  cases x with
  | nan => exact fun h2 => h2
  | val a => exact fun h2 => absurd h2 (not_lt.mpr (le_of_lt h))

end PyFloat

/-
The parity module (src/parity/parity.py).
-/

/-- ParityInputs dataclass of src/parity/parity.py: one strike's evaluation
inputs.  Field order follows the source. -/
structure ParityInputs where
  S : PyFloat
  K : PyFloat
  tau : PyFloat
  r : PyFloat
  C_mid : PyFloat
  P_mid : PyFloat
  C_bid : PyFloat
  C_ask : PyFloat
  P_bid : PyFloat
  P_ask : PyFloat
  pv_div : PyFloat
  stock_spread_cents : PyFloat

/-- Quote filter of `_safe_mid`: `v is not None and np.isfinite(v) and v > 0`.
`none` is Python's `None` (absent column); `PyFloat.nan` fails `isfinite`. -/
def okQuote : Option PyFloat → Prop
  | some (PyFloat.val a) => 0 < a
  | _ => False

/-- Numeric value of a quote that passed `okQuote` (0 for the other shapes;
only ever read under an `okQuote` guard). -/
def qval : Option PyFloat → ℝ
  | some (PyFloat.val a) => a
  | _ => 0

open Classical in
/-- `_safe_mid(bid, ask, last)` of src/parity/parity.py: the mean of bid and
ask when both pass the filter, else `last` when it passes, else `np.nan`. -/
noncomputable def _safe_mid (bid ask last : Option PyFloat) : PyFloat :=
  if okQuote bid ∧ okQuote ask then PyFloat.val (0.5 * (qval bid + qval ask))
  else if okQuote last then PyFloat.val (qval last)
  else PyFloat.nan

/-- `theoretical_rhs(S, K, tau, r, pv_div) = S - K * math.exp(-r * tau) - pv_div`. -/
noncomputable def theoretical_rhs (S K tau r pv_div : PyFloat) : PyFloat :=
  (S.sub (K.mul (PyFloat.exp ((r.neg).mul tau)))).sub pv_div

/-- `parity_gap_mid(pi) = (pi.C_mid - pi.P_mid) - theoretical_rhs(...)`. -/
noncomputable def parity_gap_mid (pi : ParityInputs) : PyFloat :=
  (pi.C_mid.sub pi.P_mid).sub (theoretical_rhs pi.S pi.K pi.tau pi.r pi.pv_div)

open Classical in
/-- `parity_gap_executable(pi, direction_hint)` of src/parity/parity.py.
`gap_mid` is computed only when no hint is given (`None` otherwise); go_A is
`(gap_mid is not None and gap_mid > 0) or direction_hint == "A"`, go_B the
mirror with `< 0` and `"B"`; each selected leg applies `or 0.0` to the option
quotes; with neither direction the result is `0.0`. -/
noncomputable def parity_gap_executable (pi : ParityInputs)
    (direction_hint : Option String) : PyFloat :=
  let stock_half_spread := (pi.stock_spread_cents.pyOr (PyFloat.val 1)).divC 200
  let S_bid := pi.S.sub stock_half_spread
  let S_ask := pi.S.add stock_half_spread
  let gap_mid : Option PyFloat :=
    match direction_hint with
    | none => some (parity_gap_mid pi)
    | some _ => none
  if (∃ g, gap_mid = some g ∧ g.gtZero) ∨ direction_hint = some "A" then
    ((pi.C_bid.pyOr (PyFloat.val 0)).sub (pi.P_ask.pyOr (PyFloat.val 0))).sub
      ((S_ask.sub (pi.K.mul (PyFloat.exp ((pi.r.neg).mul pi.tau)))).sub pi.pv_div)
  else if (∃ g, gap_mid = some g ∧ g.ltZero) ∨ direction_hint = some "B" then
    ((S_bid.sub (pi.K.mul (PyFloat.exp ((pi.r.neg).mul pi.tau)))).sub pi.pv_div).sub
      ((pi.C_ask.pyOr (PyFloat.val 0)).sub (pi.P_bid.pyOr (PyFloat.val 0)))
  else PyFloat.val 0

/-- One option-chain row as `compute_row` reads it through `row.get`: each
quote column is `None` when absent, otherwise a float (possibly nan). -/
structure Row where
  strike : PyFloat
  call_bid : Option PyFloat
  call_ask : Option PyFloat
  call_lastPrice : Option PyFloat
  put_bid : Option PyFloat
  put_ask : Option PyFloat
  put_lastPrice : Option PyFloat

/-- Shared market context dict: `S`, `tau`, `r` always present; `pv_div` and
`stock_spread_cents` read through `.get` with a default. -/
structure Common where
  S : PyFloat
  tau : PyFloat
  r : PyFloat
  pv_div : Option PyFloat
  stock_spread_cents : Option PyFloat

/-- Result dict of `compute_row`. -/
structure RowResult where
  gap_mid : PyFloat
  gap_exec : PyFloat

/-- Python `q or d` where `q` may also be `None` (absent column): `None` and
`0.0` are falsy, NaN is truthy. Models `float(row.get(...) or np.nan)`. -/
noncomputable def getOr (q : Option PyFloat) (d : PyFloat) : PyFloat :=
  match q with
  | none => d
  | some x => x.pyOr d

/-- `float(x) if np.isfinite(x) else np.nan`: the identity on this model,
since `val` is exactly the finite floats. -/
def finiteOrNan : PyFloat → PyFloat
  | PyFloat.val a => PyFloat.val a
  | PyFloat.nan => PyFloat.nan

/-- The local `pi = ParityInputs(...)` built inside `compute_row`: mids go
through `_safe_mid` and the finiteness recheck, each bid/ask through
`float(row.get(...) or np.nan)`, and the two context extras through
`.get(key, default) or default`. -/
noncomputable def compute_row_pi (row : Row) (common : Common) : ParityInputs :=
  ⟨common.S, row.strike, common.tau, common.r,
   finiteOrNan (_safe_mid row.call_bid row.call_ask row.call_lastPrice),
   finiteOrNan (_safe_mid row.put_bid row.put_ask row.put_lastPrice),
   getOr row.call_bid PyFloat.nan, getOr row.call_ask PyFloat.nan,
   getOr row.put_bid PyFloat.nan, getOr row.put_ask PyFloat.nan,
   (common.pv_div.getD (PyFloat.val 0)).pyOr (PyFloat.val 0),
   (common.stock_spread_cents.getD (PyFloat.val 1)).pyOr (PyFloat.val 1)⟩

/-- `compute_row(row, common)` of src/parity/parity.py. -/
noncomputable def compute_row (row : Row) (common : Common) : RowResult :=
  ⟨parity_gap_mid (compute_row_pi row common),
   parity_gap_executable (compute_row_pi row common) none⟩

/-
The dividend present-value helper (src/parity/data.py, pv_of_dividends).
Timestamps are modelled as rational day counts from a fixed epoch; the
`.days` attribute of a Python timedelta is the floor of the day difference.
A dividend series is a list of (ex-date, amount) pairs, `none` for `None`.
-/

/-- `pv_of_dividends(div_series, start, expiry, r_annual)` of src/parity/data.py:
discounts each dividend with ex-date strictly after `start` and at or before
`expiry` by `exp(-r_annual * max(days/365.25, 0))`. -/
noncomputable def pv_of_dividends : Option (List (ℚ × ℝ)) → ℚ → ℚ → ℝ → ℝ
  | none, _, _, _ => 0
  | some divs, start, expiry, r_annual =>
    if divs.isEmpty then 0
    else if (divs.filter fun d => decide (start < d.1 ∧ d.1 ≤ expiry)).isEmpty then 0
    else (divs.filter fun d => decide (start < d.1 ∧ d.1 ≤ expiry)).foldl
      (fun pv d =>
        pv + d.2 * Real.exp (-r_annual * max (((Int.floor (d.1 - start) : ℤ) : ℝ) / 365.25) 0))
      0

/-
Branch characterizations of parity_gap_executable.
-/

/-- The `or 0.0` guards on the option legs never change the leg difference:
`val a or 0.0 = val a` (also when `a = 0`) and NaN stays NaN. -/
theorem pyOr_zero_sub (x y : PyFloat) :
    (x.pyOr (PyFloat.val 0)).sub (y.pyOr (PyFloat.val 0)) = x.sub y := by
  rw [PyFloat.pyOr_val_zero, PyFloat.pyOr_val_zero]

theorem exec_hint_A (pi : ParityInputs) :
    parity_gap_executable pi (some "A")
      = ((pi.C_bid.pyOr (PyFloat.val 0)).sub (pi.P_ask.pyOr (PyFloat.val 0))).sub
          (((pi.S.add ((pi.stock_spread_cents.pyOr (PyFloat.val 1)).divC 200)).sub
            (pi.K.mul (PyFloat.exp ((pi.r.neg).mul pi.tau)))).sub pi.pv_div) := by
  unfold parity_gap_executable
  rw [if_pos (Or.inr rfl)]

theorem exec_none_pos (pi : ParityInputs) (h : (parity_gap_mid pi).gtZero) :
    parity_gap_executable pi none
      = ((pi.C_bid.pyOr (PyFloat.val 0)).sub (pi.P_ask.pyOr (PyFloat.val 0))).sub
          (((pi.S.add ((pi.stock_spread_cents.pyOr (PyFloat.val 1)).divC 200)).sub
            (pi.K.mul (PyFloat.exp ((pi.r.neg).mul pi.tau)))).sub pi.pv_div) := by
  unfold parity_gap_executable
  rw [if_pos (Or.inl ⟨parity_gap_mid pi, rfl, h⟩)]

theorem exec_hint_B (pi : ParityInputs) :
    parity_gap_executable pi (some "B")
      = (((pi.S.sub ((pi.stock_spread_cents.pyOr (PyFloat.val 1)).divC 200)).sub
            (pi.K.mul (PyFloat.exp ((pi.r.neg).mul pi.tau)))).sub pi.pv_div).sub
          ((pi.C_ask.pyOr (PyFloat.val 0)).sub (pi.P_bid.pyOr (PyFloat.val 0))) := by
  unfold parity_gap_executable
  rw [if_neg, if_pos (Or.inr rfl)]
  rintro (⟨g, hg, _⟩ | hAB)
  · exact Option.noConfusion hg
  · simp at hAB

theorem exec_none_neg (pi : ParityInputs) (h : (parity_gap_mid pi).ltZero) :
    parity_gap_executable pi none
      = (((pi.S.sub ((pi.stock_spread_cents.pyOr (PyFloat.val 1)).divC 200)).sub
            (pi.K.mul (PyFloat.exp ((pi.r.neg).mul pi.tau)))).sub pi.pv_div).sub
          ((pi.C_ask.pyOr (PyFloat.val 0)).sub (pi.P_bid.pyOr (PyFloat.val 0))) := by
  unfold parity_gap_executable
  rw [if_neg, if_pos (Or.inl ⟨parity_gap_mid pi, rfl, h⟩)]
  rintro (⟨g, hg, hgt⟩ | hAB)
  · simp only [Option.some.injEq] at hg
    subst hg
    exact PyFloat.not_gtZero_of_ltZero _ h hgt
  · exact Option.noConfusion hAB

theorem exec_none_neither (pi : ParityInputs)
    (hgt : ¬ (parity_gap_mid pi).gtZero) (hlt : ¬ (parity_gap_mid pi).ltZero) :
    parity_gap_executable pi none = PyFloat.val 0 := by
  unfold parity_gap_executable
  rw [if_neg, if_neg]
  · rintro (⟨g, hg, h⟩ | hB)
    · simp only [Option.some.injEq] at hg
      subst hg
      exact hlt h
    · exact Option.noConfusion hB
  · rintro (⟨g, hg, h⟩ | hA)
    · simp only [Option.some.injEq] at hg
      subst hg
      exact hgt h
    · exact Option.noConfusion hA

theorem exec_other_hint (pi : ParityInputs) (s : String)
    (hA : s ≠ "A") (hB : s ≠ "B") :
    parity_gap_executable pi (some s) = PyFloat.val 0 := by
  unfold parity_gap_executable
  rw [if_neg, if_neg]
  · rintro (⟨g, hg, _⟩ | hs)
    · exact Option.noConfusion hg
    · simp only [Option.some.injEq] at hs
      exact hB hs
  · rintro (⟨g, hg, _⟩ | hs)
    · exact Option.noConfusion hg
    · simp only [Option.some.injEq] at hs
      exact hA hs

/-
Claim theorems.
-/

/-- C4: the mid-price resolver returns `(bid+ask)/2` whenever bid and ask are
both present, finite and strictly positive, regardless of `last`; otherwise it
returns `last` when that is present, finite and strictly positive; otherwise
it returns NaN (unknown, never zero). -/
theorem claim_C4 (bid ask last : Option PyFloat) :
    (∀ b a : ℝ, bid = some (PyFloat.val b) → ask = some (PyFloat.val a) →
      0 < b → 0 < a → _safe_mid bid ask last = PyFloat.val ((b + a) / 2))
    ∧ (¬ (okQuote bid ∧ okQuote ask) →
        ∀ l : ℝ, last = some (PyFloat.val l) → 0 < l →
          _safe_mid bid ask last = PyFloat.val l)
    ∧ (¬ (okQuote bid ∧ okQuote ask) → ¬ okQuote last →
        _safe_mid bid ask last = PyFloat.nan) := by
  refine ⟨?_, ?_, ?_⟩
  · intro b a hb ha hbp hap
    subst hb
    subst ha
    unfold _safe_mid
    rw [if_pos ⟨hbp, hap⟩]
    simp only [qval, PyFloat.val.injEq]
    ring
  · intro hno l hl hlp
    subst hl
    unfold _safe_mid
    rw [if_neg hno, if_pos (show okQuote (some (PyFloat.val l)) from hlp)]
    rfl
  · intro hno hnl
    unfold _safe_mid
    rw [if_neg hno, if_neg hnl]

/-- Witness for C4 at bid 4, ask 6, no last: the mid is 5. -/
theorem claim_C4_witness :
    _safe_mid (some (PyFloat.val 4)) (some (PyFloat.val 6)) none = PyFloat.val 5 := by
  have h := (claim_C4 (some (PyFloat.val 4)) (some (PyFloat.val 6)) none).1 4 6 rfl rfl
    (by norm_num) (by norm_num)
  rw [h]
  norm_num

/-- C5: theoretical_rhs computes `S - K * exp(-r * tau) - pv_div`; with zero
time-to-expiry (and no dividends) or zero rate (and no dividends) it
collapses to `S - K`. -/
theorem claim_C5 (s k t r pv : ℝ) :
    theoretical_rhs (PyFloat.val s) (PyFloat.val k) (PyFloat.val t) (PyFloat.val r)
        (PyFloat.val pv)
      = PyFloat.val (s - k * Real.exp (-(r * t)) - pv)
    ∧ theoretical_rhs (PyFloat.val s) (PyFloat.val k) (PyFloat.val 0) (PyFloat.val r)
        (PyFloat.val 0)
      = PyFloat.val (s - k)
    ∧ theoretical_rhs (PyFloat.val s) (PyFloat.val k) (PyFloat.val t) (PyFloat.val 0)
        (PyFloat.val 0)
      = PyFloat.val (s - k) := by
  refine ⟨?_, ?_, ?_⟩
  · simp [theoretical_rhs, neg_mul]
  · simp [theoretical_rhs, Real.exp_zero]
  · simp [theoretical_rhs, Real.exp_zero]

/-- C6: gap_mid is `(C_mid - P_mid) - RHS`, and an unknown (NaN) mid on either
side makes the whole gap unknown: missingness propagates, it is never read as
zero. -/
theorem claim_C6 (pi : ParityInputs) :
    parity_gap_mid pi
      = (pi.C_mid.sub pi.P_mid).sub (theoretical_rhs pi.S pi.K pi.tau pi.r pi.pv_div)
    ∧ (pi.C_mid = PyFloat.nan ∨ pi.P_mid = PyFloat.nan →
        parity_gap_mid pi = PyFloat.nan) := by
  refine ⟨rfl, ?_⟩
  rintro (h | h) <;> simp [parity_gap_mid, h]

/-- Witness for C6: a concrete input with NaN call mid has NaN gap_mid. -/
theorem claim_C6_witness :
    parity_gap_mid
        ⟨PyFloat.val 1, PyFloat.val 1, PyFloat.val 1, PyFloat.val 1, PyFloat.nan,
         PyFloat.val 3, PyFloat.nan, PyFloat.nan, PyFloat.nan, PyFloat.nan,
         PyFloat.val 0, PyFloat.val 1⟩
      = PyFloat.nan :=
  (claim_C6 _).2 (Or.inl rfl)

/-- C7: with half-spread `c/200`, direction A (hint "A", or no hint and
gap_mid > 0) yields `(C_bid - P_ask) - (S_ask - K*exp(-r*tau) - pv_div)` and
direction B (hint "B", or no hint and gap_mid < 0) yields
`(S_bid - K*exp(-r*tau) - pv_div) - (C_ask - P_bid)`. -/
theorem claim_C7 (pi : ParityInputs) (s k t r c pv : ℝ)
    (hS : pi.S = PyFloat.val s) (hK : pi.K = PyFloat.val k)
    (htau : pi.tau = PyFloat.val t) (hr : pi.r = PyFloat.val r)
    (hpv : pi.pv_div = PyFloat.val pv)
    (hc : pi.stock_spread_cents = PyFloat.val c) (hc0 : c ≠ 0) :
    (parity_gap_executable pi (some "A")
      = (pi.C_bid.sub pi.P_ask).sub
          (PyFloat.val ((s + c / 200) - k * Real.exp (-(r * t)) - pv)))
    ∧ ((parity_gap_mid pi).gtZero →
        parity_gap_executable pi none
          = (pi.C_bid.sub pi.P_ask).sub
              (PyFloat.val ((s + c / 200) - k * Real.exp (-(r * t)) - pv)))
    ∧ (parity_gap_executable pi (some "B")
      = (PyFloat.val ((s - c / 200) - k * Real.exp (-(r * t)) - pv)).sub
          (pi.C_ask.sub pi.P_bid))
    ∧ ((parity_gap_mid pi).ltZero →
        parity_gap_executable pi none
          = (PyFloat.val ((s - c / 200) - k * Real.exp (-(r * t)) - pv)).sub
              (pi.C_ask.sub pi.P_bid)) := by
  have hrhsA :
      ((pi.S.add ((pi.stock_spread_cents.pyOr (PyFloat.val 1)).divC 200)).sub
        (pi.K.mul (PyFloat.exp ((pi.r.neg).mul pi.tau)))).sub pi.pv_div
        = PyFloat.val ((s + c / 200) - k * Real.exp (-(r * t)) - pv) := by
    rw [hS, hK, htau, hr, hpv, hc]
    simp [hc0, neg_mul]
  have hrhsB :
      ((pi.S.sub ((pi.stock_spread_cents.pyOr (PyFloat.val 1)).divC 200)).sub
        (pi.K.mul (PyFloat.exp ((pi.r.neg).mul pi.tau)))).sub pi.pv_div
        = PyFloat.val ((s - c / 200) - k * Real.exp (-(r * t)) - pv) := by
    rw [hS, hK, htau, hr, hpv, hc]
    simp [hc0, neg_mul]
  refine ⟨?_, fun h => ?_, ?_, fun h => ?_⟩
  · rw [exec_hint_A, pyOr_zero_sub, hrhsA]
  · rw [exec_none_pos pi h, pyOr_zero_sub, hrhsA]
  · rw [exec_hint_B, pyOr_zero_sub, hrhsB]
  · rw [exec_none_neg pi h, pyOr_zero_sub, hrhsB]

/-- Witness for C7: the §8 scenario with tau = 0, r = 0: hint "A" gives
`(4.9 - 3.1) - (100.005 - 100) = 1.795`. -/
theorem claim_C7_witness :
    parity_gap_executable
        ⟨PyFloat.val 100, PyFloat.val 100, PyFloat.val 0, PyFloat.val 0, PyFloat.val 5,
         PyFloat.val 3, PyFloat.val 4.9, PyFloat.val 5.1, PyFloat.val 2.9,
         PyFloat.val 3.1, PyFloat.val 0, PyFloat.val 1⟩ (some "A")
      = PyFloat.val 1.795 := by
  have h := (claim_C7
      ⟨PyFloat.val 100, PyFloat.val 100, PyFloat.val 0, PyFloat.val 0, PyFloat.val 5,
       PyFloat.val 3, PyFloat.val 4.9, PyFloat.val 5.1, PyFloat.val 2.9,
       PyFloat.val 3.1, PyFloat.val 0, PyFloat.val 1⟩
      100 100 0 0 1 0 rfl rfl rfl rfl rfl rfl (by norm_num)).1
  rw [h]
  norm_num [Real.exp_zero, PyFloat.sub_val, PyFloat.val.injEq]

/-- C3: with no hint, a gap_mid that is exactly zero or unknown (NaN) makes
the executable gap exactly 0.0; in particular a row with only a strike and no
quotes at all evaluates to gap_mid = NaN and gap_exec = 0.0. -/
theorem claim_C3 :
    (∀ pi : ParityInputs,
        parity_gap_mid pi = PyFloat.val 0 ∨ parity_gap_mid pi = PyFloat.nan →
        parity_gap_executable pi none = PyFloat.val 0)
    ∧ ∀ (strike : PyFloat) (common : Common),
        compute_row ⟨strike, none, none, none, none, none, none⟩ common
          = ⟨PyFloat.nan, PyFloat.val 0⟩ := by
  constructor
  · intro pi h
    apply exec_none_neither <;> rcases h with h | h <;> rw [h] <;> simp
  · intro strike common
    have hmid : _safe_mid none none none = PyFloat.nan := by
      unfold _safe_mid
      rw [if_neg (fun h => h.1), if_neg (show ¬ okQuote none from fun h => h)]
    have hC : (compute_row_pi ⟨strike, none, none, none, none, none, none⟩ common).C_mid
        = PyFloat.nan := by
      show finiteOrNan (_safe_mid none none none) = PyFloat.nan
      rw [hmid]
      rfl
    have hgap :
        parity_gap_mid (compute_row_pi ⟨strike, none, none, none, none, none, none⟩ common)
          = PyFloat.nan := by
      simp [parity_gap_mid, hC]
    have hexec :
        parity_gap_executable
            (compute_row_pi ⟨strike, none, none, none, none, none, none⟩ common) none
          = PyFloat.val 0 := by
      apply exec_none_neither <;> rw [hgap] <;> simp
    unfold compute_row
    rw [hgap, hexec]

/-- Witness for C3: a concrete ParityInputs whose gap_mid is exactly zero has
executable gap exactly 0.0. -/
theorem claim_C3_witness :
    parity_gap_executable
        ⟨PyFloat.val 0, PyFloat.val 0, PyFloat.val 0, PyFloat.val 0, PyFloat.val 1,
         PyFloat.val 1, PyFloat.nan, PyFloat.nan, PyFloat.nan, PyFloat.nan,
         PyFloat.val 0, PyFloat.val 1⟩ none
      = PyFloat.val 0 :=
  claim_C3.1 _ (Or.inl (by norm_num [parity_gap_mid, theoretical_rhs, Real.exp_zero]))

/-- C10: any direction hint other than None, "A" or "B" — the spec's long
hint names included — selects neither direction, so the result is exactly
0.0. -/
theorem claim_C10 (pi : ParityInputs) (s : String) (hA : s ≠ "A") (hB : s ≠ "B") :
    parity_gap_executable pi (some s) = PyFloat.val 0 :=
  exec_other_hint pi s hA hB

/-- Witness for C10 at the spec's direction-A hint name. -/
theorem claim_C10_witness :
    parity_gap_executable
        ⟨PyFloat.val 1, PyFloat.val 1, PyFloat.val 1, PyFloat.val 1, PyFloat.nan,
         PyFloat.nan, PyFloat.nan, PyFloat.nan, PyFloat.nan, PyFloat.nan,
         PyFloat.val 0, PyFloat.val 1⟩ (some "buy-call-sell-put-sell-stock")
      = PyFloat.val 0 :=
  claim_C10 _ _ (by decide) (by decide)

/-- Left fold accumulating sums equals the initial value plus the sum of the
mapped list. -/
theorem foldl_add_eq_sum {α : Type} (f : α → ℝ) :
    ∀ (l : List α) (init : ℝ),
      l.foldl (fun pv d => pv + f d) init = init + (l.map f).sum
  | [], init => by simp
  | a :: l, init => by
      simp only [List.foldl_cons, List.map_cons, List.sum_cons]
      rw [foldl_add_eq_sum f l (init + f a)]
      ring

/-- C8: pv_of_dividends sums `amount * exp(-r * t)` over exactly the
dividends with ex-date strictly after `start` and at or before `expiry`,
with `t` the floored day difference over 365.25 clamped at 0, and returns 0
for a None/empty series or when no dividend falls in the window. -/
theorem pv_some_eq (divs : List (ℚ × ℝ)) (start expiry : ℚ) (r_annual : ℝ) :
    pv_of_dividends (some divs) start expiry r_annual
      = if divs.isEmpty then 0
        else if (divs.filter fun d => decide (start < d.1 ∧ d.1 ≤ expiry)).isEmpty then 0
        else (divs.filter fun d => decide (start < d.1 ∧ d.1 ≤ expiry)).foldl
          (fun pv d =>
            pv + d.2 * Real.exp
              (-r_annual * max (((Int.floor (d.1 - start) : ℤ) : ℝ) / 365.25) 0))
          0 := rfl

theorem claim_C8 (divs : List (ℚ × ℝ)) (start expiry : ℚ) (r_annual : ℝ) :
    pv_of_dividends (some divs) start expiry r_annual
      = ((divs.filter fun d => decide (start < d.1 ∧ d.1 ≤ expiry)).map
          (fun d => d.2 * Real.exp
            (-r_annual * max (((Int.floor (d.1 - start) : ℤ) : ℝ) / 365.25) 0))).sum
    ∧ pv_of_dividends none start expiry r_annual = 0
    ∧ ((divs.filter fun d => decide (start < d.1 ∧ d.1 ≤ expiry)) = [] →
        pv_of_dividends (some divs) start expiry r_annual = 0) := by
  refine ⟨?_, rfl, ?_⟩
  · rw [pv_some_eq]
    by_cases h0 : divs.isEmpty
    · rw [if_pos h0]
      rw [List.isEmpty_iff] at h0
      rw [h0]
      simp
    · rw [if_neg h0]
      by_cases h1 : (divs.filter fun d => decide (start < d.1 ∧ d.1 ≤ expiry)).isEmpty
      · rw [if_pos h1]
        rw [List.isEmpty_iff] at h1
        rw [h1]
        simp
      · rw [if_neg h1, foldl_add_eq_sum]
        rw [zero_add]
  · intro h
    rw [pv_some_eq]
    by_cases h0 : divs.isEmpty
    · rw [if_pos h0]
    · rw [if_neg h0, if_pos (List.isEmpty_iff.mpr h)]

/-- Witness for C8: a single dividend before the window contributes nothing. -/
theorem claim_C8_witness :
    pv_of_dividends (some [((1 : ℚ), (2 : ℝ))]) 5 10 1 = 0 := by
  apply (claim_C8 [((1 : ℚ), (2 : ℝ))] 5 10 1).2.2
  simp only [List.filter_cons, List.filter_nil, decide_eq_true_eq]
  norm_num

/-
C9 machinery: `_safe_mid` and `compute_row` only look at quotes through
`okQuote`/`qval` and `getOr`, so a `0.0` quote and an absent quote are
interchangeable.
-/

theorem safe_mid_quote_irrel (b b2 a a2 l l2 : Option PyFloat)
    (hb1 : okQuote b ↔ okQuote b2) (hb2 : qval b = qval b2)
    (ha1 : okQuote a ↔ okQuote a2) (ha2 : qval a = qval a2)
    (hl1 : okQuote l ↔ okQuote l2) (hl2 : qval l = qval l2) :
    _safe_mid b a l = _safe_mid b2 a2 l2 := by
  classical
  unfold _safe_mid
  rw [hb2, ha2, hl2]
  exact if_congr (and_congr hb1 ha1) rfl (if_congr hl1 rfl rfl)

theorem compute_row_eq_of (row row2 : Row) (common : Common)
    (hstrike : row.strike = row2.strike)
    (hCmid : _safe_mid row.call_bid row.call_ask row.call_lastPrice
        = _safe_mid row2.call_bid row2.call_ask row2.call_lastPrice)
    (hPmid : _safe_mid row.put_bid row.put_ask row.put_lastPrice
        = _safe_mid row2.put_bid row2.put_ask row2.put_lastPrice)
    (hcb : getOr row.call_bid PyFloat.nan = getOr row2.call_bid PyFloat.nan)
    (hca : getOr row.call_ask PyFloat.nan = getOr row2.call_ask PyFloat.nan)
    (hpb : getOr row.put_bid PyFloat.nan = getOr row2.put_bid PyFloat.nan)
    (hpa : getOr row.put_ask PyFloat.nan = getOr row2.put_ask PyFloat.nan) :
    compute_row row common = compute_row row2 common := by
  have hpi : compute_row_pi row common = compute_row_pi row2 common := by
    unfold compute_row_pi
    rw [hstrike, hCmid, hPmid, hcb, hca, hpb, hpa]
  unfold compute_row
  rw [hpi]

theorem okQuote_zero_iff_none : okQuote (some (PyFloat.val 0)) ↔ okQuote none := by
  constructor
  · intro h
    exact absurd h (lt_irrefl 0)
  · intro h
    exact absurd h (fun h2 => h2)

theorem getOr_zero_nan : getOr (some (PyFloat.val 0)) PyFloat.nan = PyFloat.nan := by
  show PyFloat.pyOr (PyFloat.val 0) PyFloat.nan = PyFloat.nan
  rw [PyFloat.pyOr_zero_left]

/-- C9: a quote equal to exactly 0.0 is mapped to the same representation as
an absent quote (NaN through `or np.nan`), and replacing a 0.0 quote by an
absent one in any of the six quote columns leaves compute_row's output
unchanged: zero-priced and missing quotes are indistinguishable in both the
mid-price path and the executable-gap legs. -/
theorem claim_C9 (row : Row) (common : Common) :
    (getOr (some (PyFloat.val 0)) PyFloat.nan = PyFloat.nan
      ∧ getOr none PyFloat.nan = PyFloat.nan)
    ∧ compute_row ⟨row.strike, some (PyFloat.val 0), row.call_ask, row.call_lastPrice,
          row.put_bid, row.put_ask, row.put_lastPrice⟩ common
        = compute_row ⟨row.strike, none, row.call_ask, row.call_lastPrice,
            row.put_bid, row.put_ask, row.put_lastPrice⟩ common
    ∧ compute_row ⟨row.strike, row.call_bid, some (PyFloat.val 0), row.call_lastPrice,
          row.put_bid, row.put_ask, row.put_lastPrice⟩ common
        = compute_row ⟨row.strike, row.call_bid, none, row.call_lastPrice,
            row.put_bid, row.put_ask, row.put_lastPrice⟩ common
    ∧ compute_row ⟨row.strike, row.call_bid, row.call_ask, some (PyFloat.val 0),
          row.put_bid, row.put_ask, row.put_lastPrice⟩ common
        = compute_row ⟨row.strike, row.call_bid, row.call_ask, none,
            row.put_bid, row.put_ask, row.put_lastPrice⟩ common
    ∧ compute_row ⟨row.strike, row.call_bid, row.call_ask, row.call_lastPrice,
          some (PyFloat.val 0), row.put_ask, row.put_lastPrice⟩ common
        = compute_row ⟨row.strike, row.call_bid, row.call_ask, row.call_lastPrice,
            none, row.put_ask, row.put_lastPrice⟩ common
    ∧ compute_row ⟨row.strike, row.call_bid, row.call_ask, row.call_lastPrice,
          row.put_bid, some (PyFloat.val 0), row.put_lastPrice⟩ common
        = compute_row ⟨row.strike, row.call_bid, row.call_ask, row.call_lastPrice,
            row.put_bid, none, row.put_lastPrice⟩ common
    ∧ compute_row ⟨row.strike, row.call_bid, row.call_ask, row.call_lastPrice,
          row.put_bid, row.put_ask, some (PyFloat.val 0)⟩ common
        = compute_row ⟨row.strike, row.call_bid, row.call_ask, row.call_lastPrice,
            row.put_bid, row.put_ask, none⟩ common := by
  refine ⟨⟨getOr_zero_nan, rfl⟩, ?_, ?_, ?_, ?_, ?_, ?_⟩
  · exact compute_row_eq_of _ _ _ rfl
      (safe_mid_quote_irrel _ _ _ _ _ _ okQuote_zero_iff_none rfl Iff.rfl rfl Iff.rfl rfl)
      rfl getOr_zero_nan rfl rfl rfl
  · exact compute_row_eq_of _ _ _ rfl
      (safe_mid_quote_irrel _ _ _ _ _ _ Iff.rfl rfl okQuote_zero_iff_none rfl Iff.rfl rfl)
      rfl rfl getOr_zero_nan rfl rfl
  · exact compute_row_eq_of _ _ _ rfl
      (safe_mid_quote_irrel _ _ _ _ _ _ Iff.rfl rfl Iff.rfl rfl okQuote_zero_iff_none rfl)
      rfl rfl rfl rfl rfl
  · exact compute_row_eq_of _ _ _ rfl rfl
      (safe_mid_quote_irrel _ _ _ _ _ _ okQuote_zero_iff_none rfl Iff.rfl rfl Iff.rfl rfl)
      rfl rfl getOr_zero_nan rfl
  · exact compute_row_eq_of _ _ _ rfl rfl
      (safe_mid_quote_irrel _ _ _ _ _ _ Iff.rfl rfl okQuote_zero_iff_none rfl Iff.rfl rfl)
      rfl rfl rfl getOr_zero_nan
  · exact compute_row_eq_of _ _ _ rfl rfl
      (safe_mid_quote_irrel _ _ _ _ _ _ Iff.rfl rfl Iff.rfl rfl okQuote_zero_iff_none rfl)
      rfl rfl rfl rfl

/-- C1 (evaluation at the failing input): a chain row with the call bid
absent (and `gap_mid = 2 > 0` selecting direction A) does NOT get `0.0`
substituted for the missing leg: `float(row.get("call_bid") or np.nan)` turns
the absent quote into NaN, NaN is truthy so `C_bid or 0.0` keeps NaN, and the
executable gap comes out NaN instead of the claimed 0.0-substituted value. -/
theorem claim_C1_eval :
    compute_row
        ⟨PyFloat.val 100, none, some (PyFloat.val 5.1), some (PyFloat.val 5),
         some (PyFloat.val 2.9), some (PyFloat.val 3.1), none⟩
        ⟨PyFloat.val 100, PyFloat.val 0, PyFloat.val 0, some (PyFloat.val 0),
         some (PyFloat.val 1)⟩
      = ⟨PyFloat.val 2, PyFloat.nan⟩ := by
  have hC : _safe_mid none (some (PyFloat.val 5.1)) (some (PyFloat.val 5))
      = PyFloat.val 5 := by
    unfold _safe_mid
    rw [if_neg (fun h => h.1),
      if_pos (show okQuote (some (PyFloat.val 5)) by norm_num [okQuote])]
    rfl
  have hP : _safe_mid (some (PyFloat.val 2.9)) (some (PyFloat.val 3.1)) none
      = PyFloat.val 3 := by
    unfold _safe_mid
    rw [if_pos ⟨show okQuote (some (PyFloat.val 2.9)) by norm_num [okQuote],
      show okQuote (some (PyFloat.val 3.1)) by norm_num [okQuote]⟩]
    norm_num [qval]
  have hpi : compute_row_pi
      ⟨PyFloat.val 100, none, some (PyFloat.val 5.1), some (PyFloat.val 5),
       some (PyFloat.val 2.9), some (PyFloat.val 3.1), none⟩
      ⟨PyFloat.val 100, PyFloat.val 0, PyFloat.val 0, some (PyFloat.val 0),
       some (PyFloat.val 1)⟩
      = ⟨PyFloat.val 100, PyFloat.val 100, PyFloat.val 0, PyFloat.val 0,
         PyFloat.val 5, PyFloat.val 3, PyFloat.nan, PyFloat.val 5.1,
         PyFloat.val 2.9, PyFloat.val 3.1, PyFloat.val 0, PyFloat.val 1⟩ := by
    simp only [compute_row_pi]
    rw [hC, hP]
    norm_num [getOr, finiteOrNan]
  have hgap : parity_gap_mid
      ⟨PyFloat.val 100, PyFloat.val 100, PyFloat.val 0, PyFloat.val 0,
       PyFloat.val 5, PyFloat.val 3, PyFloat.nan, PyFloat.val 5.1,
       PyFloat.val 2.9, PyFloat.val 3.1, PyFloat.val 0, PyFloat.val 1⟩
      = PyFloat.val 2 := by
    norm_num [parity_gap_mid, theoretical_rhs, Real.exp_zero]
  have hpos : (parity_gap_mid
      ⟨PyFloat.val 100, PyFloat.val 100, PyFloat.val 0, PyFloat.val 0,
       PyFloat.val 5, PyFloat.val 3, PyFloat.nan, PyFloat.val 5.1,
       PyFloat.val 2.9, PyFloat.val 3.1, PyFloat.val 0, PyFloat.val 1⟩).gtZero := by
    rw [hgap]
    exact (by norm_num : (0 : ℝ) < 2)
  have hexec : parity_gap_executable
      ⟨PyFloat.val 100, PyFloat.val 100, PyFloat.val 0, PyFloat.val 0,
       PyFloat.val 5, PyFloat.val 3, PyFloat.nan, PyFloat.val 5.1,
       PyFloat.val 2.9, PyFloat.val 3.1, PyFloat.val 0, PyFloat.val 1⟩ none
      = PyFloat.nan := by
    rw [exec_none_pos _ hpos]
    simp
  unfold compute_row
  rw [hpi, hgap, hexec]

/-- C2 (evaluation at the failing input): every scalar of this ParityInputs
is finite, only the call bid is NaN (a missing quote as compute_row encodes
it), gap_mid = 2 selects direction A, and the result is NaN — neither a
finite real nor the 0.0 no-trade default. -/
theorem claim_C2_eval :
    parity_gap_executable
        ⟨PyFloat.val 100, PyFloat.val 100, PyFloat.val 0, PyFloat.val 0, PyFloat.val 5,
         PyFloat.val 3, PyFloat.nan, PyFloat.val 5.1, PyFloat.val 2.9, PyFloat.val 3.1,
         PyFloat.val 0, PyFloat.val 1⟩ none
      = PyFloat.nan := by
  have hgap : parity_gap_mid
      ⟨PyFloat.val 100, PyFloat.val 100, PyFloat.val 0, PyFloat.val 0, PyFloat.val 5,
       PyFloat.val 3, PyFloat.nan, PyFloat.val 5.1, PyFloat.val 2.9, PyFloat.val 3.1,
       PyFloat.val 0, PyFloat.val 1⟩
      = PyFloat.val 2 := by
    norm_num [parity_gap_mid, theoretical_rhs, Real.exp_zero]
  have hpos : (parity_gap_mid
      ⟨PyFloat.val 100, PyFloat.val 100, PyFloat.val 0, PyFloat.val 0, PyFloat.val 5,
       PyFloat.val 3, PyFloat.nan, PyFloat.val 5.1, PyFloat.val 2.9, PyFloat.val 3.1,
       PyFloat.val 0, PyFloat.val 1⟩).gtZero := by
    rw [hgap]
    exact (by norm_num : (0 : ℝ) < 2)
  rw [exec_none_pos _ hpos]
  simp
